import Mathlib

/-!
# Verification of the BFSI loan-conversation orchestration core

Shallow embedding of the BFSI_Agents repository: the application record
(`AppState`), the credit / calculation / CRM / document tools, the worker
agent nodes from `src/workflow/graph.py`, and the router.  Money amounts and
interest rates are modelled as rationals (the source uses Python floats for
exact decimal inputs), machine-level rounding as `round2`.  The customer
database `data/customers.json` is abstracted as a lookup function
(`CustomerDB`), and free-text message generation - declared out of scope by
the design document - is abbreviated to short tag strings; no claim below
inspects message wording.
-/

/-- Rounding to two decimal places, embedding Python's `round(x, 2)` on the
decimal values that occur here (ties are taken upward; the source's
float-based tie behaviour differs at most on exact half-cent ties, which no
claim depends on). -/
def round2 (q : ℚ) : ℚ := ((Rat.floor (q * 100 + 1/2) : ℤ) : ℚ) / 100

/-- The function `round2` agrees with the floor-function formulation. -/
theorem round2_eq_floor (q : ℚ) : round2 q = (⌊q * 100 + 1/2⌋ : ℚ) / 100 := rfl

/-- Embeds `calculate_emi` from `src/tools/calculation_tools.py` (an identical copy
lives in `src/tools/credit_tools.py`): the standard annuity EMI, rounded to
two decimals; for a zero monthly rate the principal is split evenly. -/
def calculate_emi (principal annual_rate : ℚ) (tenure_months : ℕ) : ℚ :=
  let monthly_rate := annual_rate / 12
  if monthly_rate = 0 then principal / tenure_months
  else round2 (principal * monthly_rate * (1 + monthly_rate) ^ tenure_months /
    ((1 + monthly_rate) ^ tenure_months - 1))

/-- Embeds `calculate_total_interest` from `src/tools/calculation_tools.py`. -/
def calculate_total_interest (principal annual_rate : ℚ) (tenure_months : ℕ) : ℚ :=
  let emi := calculate_emi principal annual_rate tenure_months
  round2 (emi * tenure_months - principal)

/-- Embeds `calculate_loan_amount_from_emi` from `src/tools/credit_tools.py`. -/
def calculate_loan_amount_from_emi (emi annual_rate : ℚ) (tenure_months : ℕ) : ℚ :=
  let monthly_rate := annual_rate / 12
  if monthly_rate = 0 then emi * tenure_months
  else round2 (emi * ((1 + monthly_rate) ^ tenure_months - 1) /
    (monthly_rate * (1 + monthly_rate) ^ tenure_months))

/-- One existing loan of a customer, as stored in `data/customers.json`. -/
structure ExistingLoan where
  loan_type : String
  outstanding : ℚ
  emi : ℚ
  deriving Repr, DecidableEq

/-- A customer profile, as stored in `data/customers.json` and returned by
`get_customer_by_id` in `src/tools/crm_tools.py`. -/
structure Customer where
  customer_id : String
  name : String
  phone : String
  email : String
  address : String
  credit_score : ℤ
  pre_approved_limit : ℚ
  monthly_salary : ℚ
  customer_segment : String
  existing_loans : List ExistingLoan
  deriving Repr, DecidableEq

/-- The customer store backing `get_customer_by_id`: `data/customers.json` is
data, not code, so it is abstracted as a lookup function. -/
def CustomerDB : Type := String → Option Customer

/-- Embeds `get_customer_by_id` from `src/tools/crm_tools.py`: lookup in the store. -/
def get_customer_by_id (db : CustomerDB) (customer_id : String) : Option Customer :=
  db customer_id

/-- Embeds `calculate_total_existing_emi` from `src/tools/crm_tools.py`: the sum of
the EMIs of the customer's existing loans (an unknown customer has none). -/
def calculate_total_existing_emi (db : CustomerDB) (customer_id : String) : ℚ :=
  match get_customer_by_id db customer_id with
  | some c => (c.existing_loans.map (fun l => l.emi)).sum
  | none => 0

/-- The result dictionary of `check_eligibility` in
`src/tools/credit_tools.py`.  Fields absent from a given branch of the source
keep their defaults. -/
structure EligibilityResult where
  decision : String
  reason : String
  approved_amount : Option ℚ := none
  conditions : List String := []
  recommendations : List String := []
  instant_approval : Bool := false
  monthly_emi : Option ℚ := none
  total_monthly_obligation : Option ℚ := none
  deriving Repr, DecidableEq

/-- Embeds `check_eligibility` from `src/tools/credit_tools.py`.  Rule order as in
the source: unknown customer, then credit score `< 700`, then amount within
the pre-approved limit, then amount above twice the limit, then the salary
driven EMI-affordability check.  Numeric interpolations inside the reason
strings are rendered with `toString` (the source's currency formatting is
presentation only). -/
def check_eligibility (db : CustomerDB) (customer_id : String)
    (requested_amount : ℚ) (monthly_salary : Option ℚ) : EligibilityResult :=
  match get_customer_by_id db customer_id with
  | none => { decision := "rejected", reason := "Customer not found in system" }
  | some customer =>
    let credit_score := customer.credit_score
    let pre_approved_limit := customer.pre_approved_limit
    if credit_score < 700 then
      { decision := "rejected"
        reason := "Credit score (" ++ toString credit_score ++
          ") is below minimum requirement (700)"
        recommendations :=
          ["Improve credit score by paying existing EMIs on time",
           "Reduce credit card utilization",
           "Clear any overdue payments"] }
    else if requested_amount ≤ pre_approved_limit then
      { decision := "approved"
        reason := "Loan amount is within pre-approved limit"
        approved_amount := some requested_amount
        instant_approval := true }
    else if requested_amount > 2 * pre_approved_limit then
      { decision := "rejected"
        reason := "Requested amount (" ++ toString requested_amount ++
          ") exceeds maximum eligible limit (" ++ toString (2 * pre_approved_limit) ++ ")"
        recommendations :=
          ["Consider applying for " ++ toString pre_approved_limit ++ " (pre-approved amount)",
           "Maximum eligible amount: " ++ toString (2 * pre_approved_limit)] }
    else
      match monthly_salary with
      | none =>
        { decision := "needs_documents"
          reason := "Salary slip verification required for amount above pre-approved limit"
          conditions := ["salary_slip_upload"] }
      | some salary =>
        let interest_rate : ℚ := (12/100) / 12
        let tenure := 36
        let emi := calculate_emi requested_amount (interest_rate * 12) tenure
        let total_existing_emi := calculate_total_existing_emi db customer_id
        let total_emi := emi + total_existing_emi
        let emi_to_income := total_emi / salary
        if emi_to_income ≤ 1/2 then
          { decision := "approved"
            reason := "EMI-to-income ratio is within acceptable limits"
            approved_amount := some requested_amount
            monthly_emi := some emi
            total_monthly_obligation := some total_emi }
        else
          let max_affordable_emi := salary * (1/2) - total_existing_emi
          let max_affordable_amount :=
            calculate_loan_amount_from_emi max_affordable_emi (interest_rate * 12) tenure
          { decision := "rejected"
            reason := "EMI-to-income ratio exceeds maximum limit (50%)"
            recommendations :=
              ["Maximum affordable loan amount: " ++ toString max_affordable_amount,
               "Consider increasing tenure to reduce EMI",
               "Current total EMI obligation: " ++ toString total_emi] }

/-- Embeds `calculate_risk_score` from `src/tools/credit_tools.py`. -/
def calculate_risk_score (db : CustomerDB) (customer_id : String)
    (requested_amount : ℚ) : ℚ :=
  match get_customer_by_id db customer_id with
  | none => 100
  | some customer =>
    let credit_risk := max 0 (((750 - customer.credit_score : ℤ) : ℚ) / 10)
    let amount_risk := (requested_amount / customer.pre_approved_limit - 1) * 20
    let dti_risk :=
      calculate_total_existing_emi db customer_id / customer.monthly_salary * 30
    min 100 (max 0 (credit_risk + amount_risk + dti_risk))

/-- One conversation-history entry (`add_message` in the state module stores
role, content and the authoring agent). -/
structure ChatMessage where
  role : String
  content : String
  agent : Option String
  deriving Repr, DecidableEq

/-- One generated loan offer (`generate_loan_offers` in
`src/tools/calculation_tools.py`); the purely presentational display strings
of the source dictionary are omitted. -/
structure Offer where
  amount : ℚ
  tenure_months : ℕ
  interest_rate : ℚ
  monthly_emi : ℚ
  processing_fee : ℚ
  total_interest : ℚ
  total_payable : ℚ
  savings_vs_market : ℚ
  deriving Repr, DecidableEq

/-- The Application Record threaded through every agent node
(`LoanApplicationState`).  Its field list is reconstructed from the reads and
writes in `src/workflow/graph.py`, the agents and the UI driver; the defining
module `src/workflow/state.py` is not part of the sources. -/
structure AppState where
  session_id : String := "session-1"
  customer_id : Option String := none
  customer_name : Option String := none
  conversation_history : List ChatMessage := []
  current_stage : String := "greeting"
  next_action : Option String := none
  active_agent : Option String := none
  application_status : String := "in_progress"
  requested_amount : Option ℚ := none
  customer_needs : Option String := none
  recommended_offers : List Offer := []
  tenure_months : Option ℕ := none
  interest_rate : Option ℚ := none
  monthly_emi : Option ℚ := none
  credit_score : Option ℤ := none
  underwriting_decision : Option String := none
  approved_amount : Option ℚ := none
  conditional_requirements : List String := []
  rejection_reason : Option String := none
  monthly_salary : Option ℚ := none
  salary_slip_uploaded : Bool := false
  otp_sent : Bool := false
  sanction_letter_url : Option String := none
  sanction_letter_ref_no : Option String := none
  last_error : Option String := none
  deriving Repr, DecidableEq

/-- Modelled from the spec: `add_message` of the missing module
`src/workflow/state.py` appends one entry to the append-only conversation
history (spec section 3); every use in `src/workflow/graph.py` is consistent
with this. -/
def add_message (s : AppState) (role content : String) (agent : Option String) : AppState :=
  { s with conversation_history :=
      s.conversation_history ++ [{ role := role, content := content, agent := agent }] }

/-- Modelled from the spec: `create_initial_state` of the missing module
`src/workflow/state.py` creates a fresh record with an optional customer
reference, empty history, stage `greeting` and status `in_progress`
(spec sections 3 and 4.3). -/
def create_initial_state (customer_id : Option String) : AppState :=
  { customer_id := customer_id }

/-- Embeds `generate_loan_offers` from `src/tools/calculation_tools.py`: three
offers (12, 24 and 36 months) at a rate derived from customer segment and
credit score. -/
def generate_loan_offers (db : CustomerDB) (customer_id : String)
    (requested_amount : ℚ) : List Offer :=
  match get_customer_by_id db customer_id with
  | none => []
  | some customer =>
    let base_rate : ℚ :=
      if customer.customer_segment = "premium" then 10/100
      else if customer.customer_segment = "prime" then 11/100
      else if customer.customer_segment = "preferred" then 12/100
      else 14/100
    let rate_adjustment : ℚ :=
      if customer.credit_score ≥ 800 then -1/100
      else if customer.credit_score ≥ 750 then 0
      else if customer.credit_score ≥ 700 then 1/100
      else 2/100
    let final_rate := base_rate + rate_adjustment
    [12, 24, 36].map fun tenure =>
      let emi := calculate_emi requested_amount final_rate tenure
      let total_interest := calculate_total_interest requested_amount final_rate tenure
      { amount := requested_amount
        tenure_months := tenure
        interest_rate := final_rate
        monthly_emi := emi
        processing_fee := round2 (requested_amount * 2/100)
        total_interest := total_interest
        total_payable := requested_amount + total_interest
        savings_vs_market := round2 ((15/100 - final_rate) * requested_amount * tenure / 12) }

/-- Result of `SalesAgent.process_sales` (`src/agents/sales_agent.py`).  The
LLM-phrased presentation text is abbreviated to a tag (out of scope per the
design document). -/
structure SalesResult where
  success : Bool
  error : Option String := none
  offers : List Offer := []
  presentation : String := ""
  recommended_offer : Option Offer := none
  customer_segment : Option String := none
  deriving Repr, DecidableEq

/-- Embeds `SalesAgent.process_sales` from `src/agents/sales_agent.py`: customer
lookup, offer generation, recommendation of the middle tenure
(`offers[1] if len(offers) > 1 else offers[0]`). -/
def process_sales (db : CustomerDB) (s : AppState) (requested_amount : ℚ)
    (customer_needs : String) : SalesResult :=
  match s.customer_id with
  | none => { success := false, error := some "Customer ID not available" }
  | some customer_id =>
    if customer_id = "" then
      { success := false, error := some "Customer ID not available" }
    else
      match get_customer_by_id db customer_id with
      | none => { success := false, error := some "Customer not found" }
      | some customer =>
        let offers := generate_loan_offers db customer_id requested_amount
        { success := true
          offers := offers
          presentation := "sales-offers:" ++ customer_needs
          recommended_offer := (offers.get? 1).orElse (fun _ => offers.get? 0)
          customer_segment := some customer.customer_segment }

/-- Embeds `sales_agent_node` from `src/workflow/graph.py`: if no requested amount
is present (Python truthiness: `None` or `0`), hand control back to the
master without acting; otherwise run `process_sales` and, on success, store
the offers and the recommended offer's terms. -/
def sales_agent_node (db : CustomerDB) (s : AppState) : AppState :=
  let requested_amount := s.requested_amount
  let customer_needs := s.customer_needs.getD "Personal loan requirement"
  match requested_amount with
  | none => { s with active_agent := some "master", next_action := none }
  | some amt =>
    if amt = 0 then { s with active_agent := some "master", next_action := none }
    else
      let result := process_sales db s amt customer_needs
      if result.success then
        match result.recommended_offer with
        | some recommended_offer =>
          let s1 := add_message s "assistant" result.presentation (some "sales")
          { s1 with
            recommended_offers := result.offers
            tenure_months := some recommended_offer.tenure_months
            interest_rate := some recommended_offer.interest_rate
            monthly_emi := some recommended_offer.monthly_emi
            active_agent := some "master"
            next_action := none }
        | none =>
          -- unreachable: on success the offer list has three elements
          -- (the source would raise an IndexError here)
          { s with active_agent := some "master", next_action := none }
      else
        { s with
          active_agent := some "master"
          next_action := none
          last_error := result.error }

/-- Result of `UnderwritingAgent.process_underwriting`
(`src/agents/underwriting_agent.py`); decision text abbreviated to a tag. -/
structure UnderwritingResult where
  success : Bool
  error : Option String := none
  decision : String := ""
  credit_score : Option ℤ := none
  risk_score : ℚ := 0
  eligibility_details : Option EligibilityResult := none
  message : String := ""
  approved_amount : Option ℚ := none
  conditions : List String := []
  recommendations : List String := []
  deriving Repr, DecidableEq

/-- Embeds `UnderwritingAgent.process_underwriting` from
`src/agents/underwriting_agent.py`: requires a truthy customer id and
requested amount, fetches the credit score (customer lookup), falls back to
the CRM salary when the state has none (Python `or`), and passes the salary
to `check_eligibility` only when a salary slip was uploaded. -/
def process_underwriting (db : CustomerDB) (s : AppState) : UnderwritingResult :=
  match s.customer_id, s.requested_amount with
  | some customer_id, some requested_amount =>
    if customer_id = "" ∨ requested_amount = 0 then
      { success := false, error := some "Missing customer ID or requested amount" }
    else
      match get_customer_by_id db customer_id with
      | none => { success := false, error := some "Unable to fetch credit score" }
      | some customer =>
        let monthly_salary :=
          match s.monthly_salary with
          | some v => if v = 0 then customer.monthly_salary else v
          | none => customer.monthly_salary
        let eligibility := check_eligibility db customer_id requested_amount
          (if s.salary_slip_uploaded then some monthly_salary else none)
        let risk_score := calculate_risk_score db customer_id requested_amount
        { success := true
          decision := eligibility.decision
          credit_score := some customer.credit_score
          risk_score := risk_score
          eligibility_details := some eligibility
          message := "underwriting-decision:" ++ eligibility.decision
          approved_amount := eligibility.approved_amount
          conditions := eligibility.conditions
          recommendations := eligibility.recommendations }
  | _, _ => { success := false, error := some "Missing customer ID or requested amount" }

/-- Embeds `underwriting_agent_node` from `src/workflow/graph.py`: on success it
records the decision fields and, for `approved` / `rejected`, sets the
application status accordingly; the stage is not touched. -/
def underwriting_agent_node (db : CustomerDB) (s : AppState) : AppState :=
  let result := process_underwriting db s
  if result.success then
    let s1 := add_message s "assistant" result.message (some "underwriting")
    let s2 := { s1 with
      credit_score := result.credit_score
      underwriting_decision := some result.decision
      approved_amount := result.approved_amount
      conditional_requirements := result.conditions
      rejection_reason := result.eligibility_details.map (fun e => e.reason)
      active_agent := some "master"
      next_action := none }
    if result.decision = "approved" then
      { s2 with application_status := "approved" }
    else if result.decision = "rejected" then
      { s2 with application_status := "rejected" }
    else s2
  else
    { s with active_agent := some "master", last_error := result.error }

/-- The wall-clock inputs of `generate_sanction_letter`
(`datetime.now()` in `src/tools/document_tools.py`): the `%Y%m%d` date
rendering, the `%H%M%S` time rendering, and the opaque `%d %B %Y` rendering
of `now + 30 days` used as the validity date. -/
structure Timestamp where
  date : String
  time : String
  validity : String
  deriving Repr, DecidableEq

/-- The reference number built in `generate_sanction_letter`:
`SL/<date %Y%m%d>/<customer_id>`. -/
def sanction_ref_no (now : Timestamp) (customer_id : String) : String :=
  "SL/" ++ now.date ++ "/" ++ customer_id

/-- The file name built in `generate_sanction_letter`:
`sanction_letter_<customer_id>_<date>_<time>.pdf`. -/
def sanction_filename (now : Timestamp) (customer_id : String) : String :=
  "sanction_letter_" ++ customer_id ++ "_" ++ now.date ++ "_" ++ now.time ++ ".pdf"

/-- Result of `generate_sanction_letter` (`src/tools/document_tools.py`). -/
structure SanctionLetterResult where
  success : Bool
  error : Option String := none
  reference_number : String := ""
  file_path : String := ""
  filename : String := ""
  validity_date : String := ""
  deriving Repr, DecidableEq

/-- Embeds `generate_sanction_letter` from `src/tools/document_tools.py`: customer
lookup, then a fresh reference number and a fresh timestamped file name on
every call (the PDF body built between them is pure output and carries no
state).  The loan parameters are rendered into the PDF only. -/
def generate_sanction_letter (db : CustomerDB) (now : Timestamp)
    (customer_id : String) (loan_amount : ℚ) (tenure_months : ℕ)
    (interest_rate monthly_emi : ℚ) : SanctionLetterResult :=
  match get_customer_by_id db customer_id with
  | none => { success := false, error := some "Customer not found" }
  | some _ =>
    let _render := (loan_amount, tenure_months, interest_rate, monthly_emi)
    let ref_no := sanction_ref_no now customer_id
    let filename := sanction_filename now customer_id
    { success := true
      reference_number := ref_no
      file_path := "data/output/" ++ filename
      filename := filename
      validity_date := now.validity }

/-- Embeds `os.path.basename`: the characters after the last slash. -/
def path_basename (p : String) : String :=
  String.mk ((p.data.reverse.takeWhile (fun c => c != '/')).reverse)

/-- Embeds `get_document_download_url` from `src/tools/document_tools.py`:
`/api/documents/download/<basename(filepath)>`. -/
def get_document_download_url (filepath : String) : String :=
  "/api/documents/download/" ++ path_basename filepath

/-- Result of `SanctionAgent.generate_sanction`
(`src/agents/sanction_agent.py`); the congratulatory message text is
abbreviated to a tag. -/
structure SanctionResult where
  success : Bool
  error : Option String := none
  sanction_letter_url : String := ""
  file_path : String := ""
  reference_number : String := ""
  validity_date : String := ""
  message : String := ""
  deriving Repr, DecidableEq

/-- Embeds `SanctionAgent.generate_sanction` from `src/agents/sanction_agent.py`:
`if not all([customer_id, approved_amount, tenure_months, interest_rate,
monthly_emi])` (Python truthiness: a missing, empty or zero value) yields an
error result; otherwise the letter is generated and the download URL
derived. -/
def generate_sanction (db : CustomerDB) (now : Timestamp) (s : AppState) : SanctionResult :=
  match s.customer_id, s.approved_amount, s.tenure_months, s.interest_rate, s.monthly_emi with
  | some customer_id, some approved_amount, some tenure_months,
      some interest_rate, some monthly_emi =>
    if customer_id = "" ∨ approved_amount = 0 ∨ tenure_months = 0 ∨
        interest_rate = 0 ∨ monthly_emi = 0 then
      { success := false, error := some "Missing required information for sanction letter" }
    else
      let result := generate_sanction_letter db now customer_id approved_amount
        tenure_months interest_rate monthly_emi
      if result.success then
        let download_url := get_document_download_url result.file_path
        { success := true
          sanction_letter_url := download_url
          file_path := result.file_path
          reference_number := result.reference_number
          validity_date := result.validity_date
          message := "sanction-letter:" ++ result.reference_number }
      else
        { success := false, error := some "Failed to generate sanction letter" }
  | _, _, _, _, _ =>
    { success := false, error := some "Missing required information for sanction letter" }

/-- Embeds `sanction_agent_node` from `src/workflow/graph.py`: on success it stores
the letter URL and reference number and moves the stage to `closure`; on
failure only `active_agent` and `last_error` change. -/
def sanction_agent_node (db : CustomerDB) (now : Timestamp) (s : AppState) : AppState :=
  let result := generate_sanction db now s
  if result.success then
    let s1 := add_message s "assistant" result.message (some "sanction")
    { s1 with
      sanction_letter_url := some result.sanction_letter_url
      sanction_letter_ref_no := some result.reference_number
      current_stage := "closure"
      active_agent := some "master"
      next_action := none }
  else
    { s with active_agent := some "master", last_error := result.error }

/-- Embeds `route_master_agent` from `src/workflow/graph.py`: the four explicit
delegation signals win; otherwise the conversation ends exactly when the
stage is `closure` and the status is terminal; otherwise control stays with
the master. -/
def route_master_agent (s : AppState) : String :=
  if s.next_action = some "delegate_to_sales" then "sales"
  else if s.next_action = some "delegate_to_verification" then "verification"
  else if s.next_action = some "delegate_to_underwriting" then "underwriting"
  else if s.next_action = some "delegate_to_sanction" then "sanction"
  else if s.current_stage = "closure" ∧
      (s.application_status = "approved" ∨ s.application_status = "rejected" ∨
       s.application_status = "abandoned") then "end"
  else "master"

/-- The position of a stage in the fixed ordering of spec section 4.3. -/
def stageIdx : String → ℕ
  | "greeting" => 0
  | "needs_assessment" => 1
  | "sales_negotiation" => 2
  | "verification" => 3
  | "underwriting" => 4
  | "document_upload" => 5
  | "sanction_generation" => 6
  | "closure" => 7
  | _ => 0

/-- The values the master may leave in `next_action` (spec section 4.1 and
the dispatch table in `src/workflow/graph.py`). -/
def delegationSignals : List (Option String) :=
  [none, some "delegate_to_sales", some "delegate_to_verification",
   some "delegate_to_underwriting", some "delegate_to_sanction"]

/-- Modelled from the spec: one invocation of `master_agent_node`.  The node
shell is in `src/workflow/graph.py` but `MasterAgent.process_message` and
`generate_greeting` live in the missing `src/agents/master_agent.py`, so the
reply, the new stage and the routing signal are existentially quantified,
constrained as spec sections 4.1 and 4.3 require: on an empty history only a
greeting is appended; otherwise the node acts only when the last entry is a
user message, appends one assistant message, never regresses the stage
(except the `document_upload` to `underwriting` re-entry) and emits one of
the known signals. -/
def MasterStep (s s' : AppState) : Prop :=
  (s.conversation_history = [] ∧
    ∃ greeting, s' = add_message s "assistant" greeting (some "master")) ∨
  (∃ m, s.conversation_history.getLast? = some m ∧ m.role = "user" ∧
    ∃ reply new_stage act,
      (stageIdx s.current_stage ≤ stageIdx new_stage ∨
        (s.current_stage = "document_upload" ∧ new_stage = "underwriting")) ∧
      act ∈ delegationSignals ∧
      s' = { add_message s "assistant" reply (some "master") with
        current_stage := new_stage
        next_action := act
        active_agent := some "master" })

/-- One caller turn of the UI driver (`src/ui/chatbot_app.py` plus
`LoanApplicationWorkflow.process_message` in `src/workflow/graph.py`): the
driver may store an extracted positive loan amount and the needs text while
the stage is `needs_assessment`, and the user message is appended to the
history before the graph runs. -/
def DriverStep (s s' : AppState) : Prop :=
  ∃ msg : String, ∃ amt : ℚ,
    (s.current_stage = "needs_assessment" ∧ 0 < amt ∧
      s' = add_message
        { s with requested_amount := some amt, customer_needs := some msg }
        "user" msg none) ∨
    s' = add_message s "user" msg none

/-- The states an application record can reach: the initial record, then
closure under driver turns, master invocations, and the worker nodes the
router dispatches to.  (The verification node is omitted: it depends on the
missing verification agent and no claim concerns it; omitting a step kind
only shrinks the reachable set.) -/
inductive Reachable (db : CustomerDB) : AppState → Prop where
  | init : ∀ customer_id, Reachable db (create_initial_state customer_id)
  | driver : ∀ s s', Reachable db s → DriverStep s s' → Reachable db s'
  | master : ∀ s s', Reachable db s → MasterStep s s' → Reachable db s'
  | sales : ∀ s, Reachable db s → route_master_agent s = "sales" →
      Reachable db (sales_agent_node db s)
  | underwriting : ∀ s, Reachable db s → route_master_agent s = "underwriting" →
      Reachable db (underwriting_agent_node db s)
  | sanction : ∀ s now, Reachable db s → route_master_agent s = "sanction" →
      Reachable db (sanction_agent_node db now s)

/-- Bitwise complement on 32-bit words represented as naturals. -/
def bnot32 (x : ℕ) : ℕ := x ^^^ 0xffffffff

/-- Left rotation of a 32-bit word. -/
def rotl32 (x n : ℕ) : ℕ := ((x <<< n) % 2 ^ 32) ||| (x >>> (32 - n))

/-- The MD5 sine-derived constant table (RFC 1321), used by `hashlib.md5`. -/
def md5K : List ℕ :=
  [0xd76aa478, 0xe8c7b756, 0x242070db, 0xc1bdceee,
   0xf57c0faf, 0x4787c62a, 0xa8304613, 0xfd469501,
   0x698098d8, 0x8b44f7af, 0xffff5bb1, 0x895cd7be,
   0x6b901122, 0xfd987193, 0xa679438e, 0x49b40821,
   0xf61e2562, 0xc040b340, 0x265e5a51, 0xe9b6c7aa,
   0xd62f105d, 0x02441453, 0xd8a1e681, 0xe7d3fbc8,
   0x21e1cde6, 0xc33707d6, 0xf4d50d87, 0x455a14ed,
   0xa9e3e905, 0xfcefa3f8, 0x676f02d9, 0x8d2a4c8a,
   0xfffa3942, 0x8771f681, 0x6d9d6122, 0xfde5380c,
   0xa4beea44, 0x4bdecfa9, 0xf6bb4b60, 0xbebfbc70,
   0x289b7ec6, 0xeaa127fa, 0xd4ef3085, 0x04881d05,
   0xd9d4d039, 0xe6db99e5, 0x1fa27cf8, 0xc4ac5665,
   0xf4292244, 0x432aff97, 0xab9423a7, 0xfc93a039,
   0x655b59c3, 0x8f0ccc92, 0xffeff47d, 0x85845dd1,
   0x6fa87e4f, 0xfe2ce6e0, 0xa3014314, 0x4e0811a1,
   0xf7537e82, 0xbd3af235, 0x2ad7d2bb, 0xeb86d391]

/-- The MD5 per-round shift table (RFC 1321). -/
def md5S : List ℕ :=
  [7, 12, 17, 22, 7, 12, 17, 22, 7, 12, 17, 22, 7, 12, 17, 22,
   5, 9, 14, 20, 5, 9, 14, 20, 5, 9, 14, 20, 5, 9, 14, 20,
   4, 11, 16, 23, 4, 11, 16, 23, 4, 11, 16, 23, 4, 11, 16, 23,
   6, 10, 15, 21, 6, 10, 15, 21, 6, 10, 15, 21, 6, 10, 15, 21]

/-- The MD5 round mixing function for round `i`. -/
def md5Mix (i b c d : ℕ) : ℕ :=
  if i < 16 then (b &&& c) ||| (bnot32 b &&& d)
  else if i < 32 then (d &&& b) ||| (bnot32 d &&& c)
  else if i < 48 then b ^^^ c ^^^ d
  else c ^^^ (b ||| bnot32 d)

/-- The MD5 message-word index for round `i`. -/
def md5WordIdx (i : ℕ) : ℕ :=
  if i < 16 then i
  else if i < 32 then (5 * i + 1) % 16
  else if i < 48 then (3 * i + 5) % 16
  else (7 * i) % 16

/-- The running MD5 state (four 32-bit words). -/
structure MD5State where
  a : ℕ
  b : ℕ
  c : ℕ
  d : ℕ
  deriving Repr, DecidableEq

/-- One of the 64 MD5 rounds over the 16 message words `M`. -/
def md5Round (M : List ℕ) (st : MD5State) (i : ℕ) : MD5State :=
  let f := (md5Mix i st.b st.c st.d + st.a + md5K.getD i 0 +
    M.getD (md5WordIdx i) 0) % 2 ^ 32
  { a := st.d, b := (st.b + rotl32 f (md5S.getD i 0)) % 2 ^ 32, c := st.b, d := st.c }

/-- Processing one 64-byte block: split into 16 little-endian words, run the
64 rounds, add the result into the state modulo `2^32`. -/
def md5Block (st : MD5State) (block : List ℕ) : MD5State :=
  let M := (List.range 16).map fun j =>
    block.getD (4 * j) 0 + 256 * block.getD (4 * j + 1) 0 +
    65536 * block.getD (4 * j + 2) 0 + 16777216 * block.getD (4 * j + 3) 0
  let r := (List.range 64).foldl (md5Round M) st
  { a := (st.a + r.a) % 2 ^ 32, b := (st.b + r.b) % 2 ^ 32,
    c := (st.c + r.c) % 2 ^ 32, d := (st.d + r.d) % 2 ^ 32 }

/-- MD5 padding: a `0x80` byte, zeros to 56 modulo 64, then the bit length
as a 64-bit little-endian quantity. -/
def md5Pad (msg : List ℕ) : List ℕ :=
  let len := msg.length
  let zeros := (56 + 64 - (len + 1) % 64) % 64
  msg ++ [0x80] ++ List.replicate zeros 0 ++
    ((List.range 8).map fun i => ((8 * len) >>> (8 * i)) % 256)

/-- The MD5 digest of a byte sequence, as the 16 digest bytes. -/
def md5DigestBytes (msg : List ℕ) : List ℕ :=
  let padded := md5Pad msg
  let blocks := (List.range (padded.length / 64)).map fun i =>
    (padded.drop (64 * i)).take 64
  let st := blocks.foldl md5Block
    { a := 0x67452301, b := 0xefcdab89, c := 0x98badcfe, d := 0x10325476 }
  (([st.a, st.b, st.c, st.d].map fun w =>
    (List.range 4).map fun i => (w >>> (8 * i)) % 256)).flatten

/-- UTF-8 encoding of one character (`str.encode()` in Python). -/
def utf8Bytes (c : Char) : List ℕ :=
  let n := c.toNat
  if n < 0x80 then [n]
  else if n < 0x800 then
    [0xc0 ||| (n >>> 6), 0x80 ||| (n &&& 0x3f)]
  else if n < 0x10000 then
    [0xe0 ||| (n >>> 12), 0x80 ||| ((n >>> 6) &&& 0x3f), 0x80 ||| (n &&& 0x3f)]
  else
    [0xf0 ||| (n >>> 18), 0x80 ||| ((n >>> 12) &&& 0x3f),
     0x80 ||| ((n >>> 6) &&& 0x3f), 0x80 ||| (n &&& 0x3f)]

/-- The UTF-8 bytes of a string. -/
def strBytes (s : String) : List ℕ := (s.data.map utf8Bytes).flatten

/-- Embeds `int(hashlib.md5(phone.encode()).hexdigest(), 16)`: the digest bytes read
as one big-endian integer (hex rendering followed by base-16 parsing). -/
def md5Int (s : String) : ℕ :=
  (md5DigestBytes (strBytes s)).foldl (fun acc b => 256 * acc + b) 0

/-- The last `n` characters of a string (Python slice `[-n:]`). -/
def lastChars (n : ℕ) (s : String) : String :=
  String.mk ((s.data.reverse.take n).reverse)

/-- Embeds `simulate_otp_generation` from `src/tools/crm_tools.py`: the OTP is the
last six characters of the decimal rendering of the MD5 digest of the phone
number - a pure function of the phone string, with no randomness or nonce. -/
def simulate_otp_generation (phone : String) : String :=
  lastChars 6 (Nat.repr (md5Int phone))

/-- Embeds `verify_otp` from `src/tools/crm_tools.py`: plain string comparison of
the provided and generated codes; the phone argument is ignored. -/
def verify_otp (phone provided_otp generated_otp : String) : Bool :=
  let _ := phone
  provided_otp == generated_otp


/-- The four explicit delegation signals of `route_master_agent`. -/
def masterDelegations : List (Option String) :=
  [some "delegate_to_sales", some "delegate_to_verification",
   some "delegate_to_underwriting", some "delegate_to_sanction"]

/-- Demo customer in the shape of `CUST001` of the test scenarios: credit
score 800, pre-approved limit 500000. -/
def custDemo1 : Customer :=
  { customer_id := "CUST001", name := "Rajesh Kumar", phone := "9876543210"
    email := "rajesh@example.com", address := "Mumbai", credit_score := 800
    pre_approved_limit := 500000, monthly_salary := 120000
    customer_segment := "premium", existing_loans := [] }

/-- Demo customer in the shape of `CUST002` of the test scenarios: credit
score 750, pre-approved limit 400000, one existing loan. -/
def custDemo2 : Customer :=
  { customer_id := "CUST002", name := "Priya Sharma", phone := "9876500000"
    email := "priya@example.com", address := "Delhi", credit_score := 750
    pre_approved_limit := 400000, monthly_salary := 80000
    customer_segment := "prime"
    existing_loans := [{ loan_type := "car_loan", outstanding := 200000, emi := 9000 }] }

/-- Demo customer in the shape of `CUST003` of the test scenarios: credit
score 680 (below the cutoff). -/
def custDemo3 : Customer :=
  { customer_id := "CUST003", name := "Amit Patel", phone := "9876511111"
    email := "amit@example.com", address := "Ahmedabad", credit_score := 680
    pre_approved_limit := 200000, monthly_salary := 50000
    customer_segment := "standard", existing_loans := [] }

/-- A concrete three-customer store for witnesses and counterexamples. -/
def dbDemo : CustomerDB := fun customer_id =>
  if customer_id = "CUST001" then some custDemo1
  else if customer_id = "CUST002" then some custDemo2
  else if customer_id = "CUST003" then some custDemo3
  else none

/-- C2: the router's dispatch decision is a deterministic function of
`(next_action, current_stage, application_status)`; each of the four
explicit delegation signals dispatches to its unit regardless of stage;
with no delegation signal the conversation ends exactly when the stage is
`closure` and the status is `approved`, `rejected` or `abandoned`, and
otherwise control stays with the master. -/
theorem route_master_agent_spec (s t : AppState) :
    (s.next_action = t.next_action → s.current_stage = t.current_stage →
      s.application_status = t.application_status →
      route_master_agent s = route_master_agent t) ∧
    (s.next_action = some "delegate_to_sales" → route_master_agent s = "sales") ∧
    (s.next_action = some "delegate_to_verification" →
      route_master_agent s = "verification") ∧
    (s.next_action = some "delegate_to_underwriting" →
      route_master_agent s = "underwriting") ∧
    (s.next_action = some "delegate_to_sanction" → route_master_agent s = "sanction") ∧
    (s.next_action ∉ masterDelegations → s.current_stage = "closure" →
      (s.application_status = "approved" ∨ s.application_status = "rejected" ∨
        s.application_status = "abandoned") →
      route_master_agent s = "end") ∧
    (s.next_action ∉ masterDelegations →
      ¬ (s.current_stage = "closure" ∧
        (s.application_status = "approved" ∨ s.application_status = "rejected" ∨
          s.application_status = "abandoned")) →
      route_master_agent s = "master") := by
  refine ⟨?_, ?_, ?_, ?_, ?_, ?_, ?_⟩
  · intro h1 h2 h3
    simp only [route_master_agent, h1, h2, h3]
  · intro h; simp [route_master_agent, h]
  · intro h; simp [route_master_agent, h]
  · intro h; simp [route_master_agent, h]
  · intro h; simp [route_master_agent, h]
  · intro h1 h2 h3
    simp only [masterDelegations, List.mem_cons, List.not_mem_nil, or_false] at h1
    push_neg at h1
    obtain ⟨h1a, h1b, h1c, h1d⟩ := h1
    simp [route_master_agent, h1a, h1b, h1c, h1d, h2, h3]
  · intro h1 h2
    simp only [masterDelegations, List.mem_cons, List.not_mem_nil, or_false] at h1
    push_neg at h1
    obtain ⟨h1a, h1b, h1c, h1d⟩ := h1
    simp [route_master_agent, h1a, h1b, h1c, h1d, h2]

/-- Witness for C2: a concrete delegating state routes to `sales`, and a
concrete closed approved state routes to `end`. -/
theorem route_master_agent_spec_witness :
    route_master_agent { next_action := some "delegate_to_sales" } = "sales" ∧
    route_master_agent
      { current_stage := "closure", application_status := "approved" } = "end" := by
  constructor
  · exact (route_master_agent_spec { next_action := some "delegate_to_sales" }
      { next_action := some "delegate_to_sales" }).2.1 rfl
  · exact (route_master_agent_spec
      { current_stage := "closure", application_status := "approved" }
      { current_stage := "closure", application_status := "approved" }).2.2.2.2.2.1
      (by decide) rfl (Or.inl rfl)

/-- C5: a credit score below 700 yields decision `rejected` with a non-empty
reason and a non-empty recommendation list, and the result depends neither on
the requested amount nor on the pre-approved limit (it is the same for any
store, customer and arguments with that credit score). -/
theorem check_eligibility_low_score (db : CustomerDB) (customer_id : String)
    (c : Customer) (requested_amount : ℚ) (monthly_salary : Option ℚ)
    (hdb : db customer_id = some c) (hcs : c.credit_score < 700) :
    (check_eligibility db customer_id requested_amount monthly_salary).decision
      = "rejected" ∧
    (check_eligibility db customer_id requested_amount monthly_salary).reason ≠ "" ∧
    (check_eligibility db customer_id requested_amount monthly_salary).recommendations
      ≠ [] ∧
    (∀ (db' : CustomerDB) (customer_id' : String) (c' : Customer)
        (requested_amount' : ℚ) (monthly_salary' : Option ℚ),
      db' customer_id' = some c' → c'.credit_score = c.credit_score →
      check_eligibility db' customer_id' requested_amount' monthly_salary' =
        check_eligibility db customer_id requested_amount monthly_salary) := by
  have hred : check_eligibility db customer_id requested_amount monthly_salary =
      { decision := "rejected"
        reason := "Credit score (" ++ toString c.credit_score ++
          ") is below minimum requirement (700)"
        recommendations :=
          ["Improve credit score by paying existing EMIs on time",
           "Reduce credit card utilization",
           "Clear any overdue payments"] } := by
    simp only [check_eligibility, get_customer_by_id, hdb]
    rw [if_pos hcs]
  refine ⟨by rw [hred], ?_, by rw [hred]; simp, ?_⟩
  · rw [hred]
    intro hcontra
    have hlen := congrArg String.length hcontra
    simp only [String.length_append] at hlen
    have h1 : ("Credit score (" : String).length = 14 := rfl
    have h2 : (") is below minimum requirement (700)" : String).length = 36 := rfl
    have h3 : ("" : String).length = 0 := rfl
    omega
  · intro db' customer_id' c' requested_amount' monthly_salary' hdb' hcs'
    have hcs'lt : c'.credit_score < 700 := by rw [hcs']; exact hcs
    rw [hred]
    simp only [check_eligibility, get_customer_by_id, hdb']
    rw [if_pos hcs'lt, hcs']

/-- Witness for C5: the sub-700 demo customer is rejected for any amount. -/
theorem check_eligibility_low_score_witness :
    (check_eligibility dbDemo "CUST003" 600000 none).decision = "rejected" ∧
    (check_eligibility dbDemo "CUST003" 600000 none).recommendations ≠ [] := by
  have h := check_eligibility_low_score dbDemo "CUST003" custDemo3 600000 none
    rfl (by decide)
  exact ⟨h.1, h.2.2.1⟩

/-- C4: for a customer with credit score at least 700 and a requested amount
within the pre-approved limit, a single underwriting step returns decision
`approved`, sets the application status to `approved` and stores the
requested amount as the approved amount.  (The customer id and amount are
required to be truthy, the source's convention for "present".) -/
theorem underwriting_instant_approval (db : CustomerDB) (s : AppState)
    (customer_id : String) (c : Customer) (amt : ℚ)
    (hcid : s.customer_id = some customer_id) (hcidne : customer_id ≠ "")
    (hamt : s.requested_amount = some amt) (hamtne : amt ≠ 0)
    (hdb : db customer_id = some c) (hcs : 700 ≤ c.credit_score)
    (hle : amt ≤ c.pre_approved_limit) :
    (underwriting_agent_node db s).underwriting_decision = some "approved" ∧
    (underwriting_agent_node db s).application_status = "approved" ∧
    (underwriting_agent_node db s).approved_amount = some amt := by
  have helig : ∀ sal, check_eligibility db customer_id amt sal =
      { decision := "approved"
        reason := "Loan amount is within pre-approved limit"
        approved_amount := some amt
        instant_approval := true } := by
    intro sal
    simp only [check_eligibility, get_customer_by_id, hdb]
    rw [if_neg (not_lt.mpr hcs), if_pos hle]
  have hproc : process_underwriting db s =
      { success := true
        decision := "approved"
        credit_score := some c.credit_score
        risk_score := calculate_risk_score db customer_id amt
        eligibility_details := some
          { decision := "approved"
            reason := "Loan amount is within pre-approved limit"
            approved_amount := some amt
            instant_approval := true }
        message := "underwriting-decision:" ++ "approved"
        approved_amount := some amt
        conditions := []
        recommendations := [] } := by
    simp only [process_underwriting, hcid, hamt]
    rw [if_neg (by simp [hcidne, hamtne])]
    simp only [get_customer_by_id, hdb, helig]
  simp only [underwriting_agent_node, hproc]
  simp [add_message]

/-- Witness for C4: the demo customer with score 800 requesting 400000
(limit 500000) is instantly approved for exactly that amount. -/
theorem underwriting_instant_approval_witness :
    (underwriting_agent_node dbDemo
      { customer_id := some "CUST001", requested_amount := some 400000
        current_stage := "underwriting" }).application_status = "approved" ∧
    (underwriting_agent_node dbDemo
      { customer_id := some "CUST001", requested_amount := some 400000
        current_stage := "underwriting" }).approved_amount = some 400000 := by
  have h := underwriting_instant_approval dbDemo
    { customer_id := some "CUST001", requested_amount := some 400000
      current_stage := "underwriting" }
    "CUST001" custDemo1 400000 rfl (by decide) rfl (by norm_num) rfl
    (by decide) (by norm_num [custDemo1])
  exact ⟨h.2.1, h.2.2⟩

/-- C3: with credit score at least 700 and an amount strictly between the
pre-approved limit and twice that limit, `check_eligibility` without a
salary asks for documents with condition `salary_slip_upload`; with a
positive verified salary it approves exactly when the new EMI plus the
existing EMIs is at most half the salary, and rejects otherwise. -/
theorem check_eligibility_conditional (db : CustomerDB) (customer_id : String)
    (c : Customer) (amt : ℚ) (hdb : db customer_id = some c)
    (hcs : 700 ≤ c.credit_score) (hlo : c.pre_approved_limit < amt)
    (hhi : amt < 2 * c.pre_approved_limit) :
    (check_eligibility db customer_id amt none).decision = "needs_documents" ∧
    (check_eligibility db customer_id amt none).conditions = ["salary_slip_upload"] ∧
    ∀ sal : ℚ, 0 < sal →
      (((check_eligibility db customer_id amt (some sal)).decision = "approved") ↔
        calculate_emi amt (12/100) 36 + calculate_total_existing_emi db customer_id
          ≤ sal / 2) ∧
      (((check_eligibility db customer_id amt (some sal)).decision = "rejected") ↔
        ¬ (calculate_emi amt (12/100) 36 + calculate_total_existing_emi db customer_id
          ≤ sal / 2)) := by
  have hnotlt : ¬ c.credit_score < 700 := not_lt.mpr hcs
  have hnotle : ¬ amt ≤ c.pre_approved_limit := not_le.mpr hlo
  have hnotgt : ¬ amt > 2 * c.pre_approved_limit := not_lt.mpr (le_of_lt hhi)
  have harg : ((12 : ℚ)/100)/12 * 12 = 12/100 := by norm_num
  refine ⟨?_, ?_, ?_⟩
  · simp only [check_eligibility, get_customer_by_id, hdb]
    rw [if_neg hnotlt, if_neg hnotle, if_neg hnotgt]
  · simp only [check_eligibility, get_customer_by_id, hdb]
    rw [if_neg hnotlt, if_neg hnotle, if_neg hnotgt]
  · intro sal hsal
    simp only [check_eligibility, get_customer_by_id, hdb]
    rw [if_neg hnotlt, if_neg hnotle, if_neg hnotgt]
    simp only [harg]
    have hiff :
        (calculate_emi amt (12/100) 36 + calculate_total_existing_emi db customer_id)
            / sal ≤ 1/2 ↔
        calculate_emi amt (12/100) 36 + calculate_total_existing_emi db customer_id
            ≤ sal / 2 := by
      rw [div_le_iff₀ hsal]
      constructor <;> intro h <;> linarith
    split_ifs with hP
    · simp only [hiff] at hP
      constructor
      · simp [hP]
      · simp [hP]
    · simp only [hiff] at hP
      constructor
      · simp [hP]
      · simp [hP]

/-- Witness for C3: the demo customer with limit 400000 requesting 600000
first needs documents; with a verified salary of 80000 (new EMI about 19929
plus 9000 existing, below 40000) the re-run approves. -/
theorem check_eligibility_conditional_witness :
    (check_eligibility dbDemo "CUST002" 600000 none).decision = "needs_documents" ∧
    (check_eligibility dbDemo "CUST002" 600000 (some 80000)).decision = "approved" := by
  have h := check_eligibility_conditional dbDemo "CUST002" custDemo2 600000
    rfl (by decide) (by norm_num [custDemo2]) (by norm_num [custDemo2])
  refine ⟨h.1, ?_⟩
  have h2 := (h.2.2 80000 (by norm_num)).1
  rw [h2]
  have h3 : calculate_total_existing_emi dbDemo "CUST002" = 9000 := by
    simp [calculate_total_existing_emi, get_customer_by_id, dbDemo, custDemo2]
  rw [h3]
  norm_num [calculate_emi, round2_eq_floor]

/-- Half-cent accuracy of two-decimal rounding. -/
theorem abs_round2_sub_le (x : ℚ) : |round2 x - x| ≤ 1/200 := by
  rw [round2_eq_floor]
  have h1 : ((⌊x * 100 + 1/2⌋ : ℤ) : ℚ) ≤ x * 100 + 1/2 := Int.floor_le _
  have h2 : x * 100 + 1/2 - 1 < ((⌊x * 100 + 1/2⌋ : ℤ) : ℚ) := Int.sub_one_lt_floor _
  rw [abs_le]
  constructor <;> [linarith; linarith]

/-- The closed-form annuity payment named by the spec:
`P * r * (1+r)^n / ((1+r)^n - 1)` for a monthly rate `r` over `n` months. -/
def annuity_payment (P r : ℚ) (n : ℕ) : ℚ :=
  P * r * (1 + r) ^ n / ((1 + r) ^ n - 1)

/-- C7: for positive principal, non-negative rate and positive tenure,
`calculate_emi` is the closed-form annuity payment at monthly rate
`annual_rate / 12` rounded to two decimals (`P / n` when the rate is zero),
and `calculate_total_interest` satisfies the round-trip equation
`total_interest = emi * n - P` within the 0.005 rounding tolerance. -/
theorem calculate_emi_spec (P r : ℚ) (n : ℕ)
    (hP : 0 < P) (hr : 0 ≤ r) (hn : 0 < n) :
    (r = 0 → calculate_emi P r n = P / n) ∧
    (r ≠ 0 → calculate_emi P r n = round2 (annuity_payment P (r / 12) n)) ∧
    |calculate_total_interest P r n - (calculate_emi P r n * n - P)| ≤ 1/200 := by
  refine ⟨?_, ?_, ?_⟩
  · intro h0
    simp [calculate_emi, h0]
  · intro hne
    have hdiv : ¬ (r / 12 = 0) := by
      simp only [div_eq_zero_iff]
      push_neg
      exact ⟨hne, by norm_num⟩
    simp only [calculate_emi, annuity_payment]
    rw [if_neg hdiv]
  · simpa [calculate_total_interest] using
      abs_round2_sub_le (calculate_emi P r n * n - P)

/-- Witness for C7 at principal 100000, annual rate 12 percent, 36 months. -/
theorem calculate_emi_spec_witness :
    (0 : ℚ) < 100000 ∧
    calculate_emi 100000 (12/100) 36 =
      round2 (annuity_payment 100000 ((12/100) / 12) 36) ∧
    |calculate_total_interest 100000 (12/100) 36 -
      (calculate_emi 100000 (12/100) 36 * 36 - 100000)| ≤ 1/200 := by
  have h := calculate_emi_spec 100000 (12/100) 36
    (by norm_num) (by norm_num) (by norm_num)
  exact ⟨by norm_num, h.2.1 (by norm_num), h.2.2⟩

set_option maxRecDepth 4000 in
/-- C10: the OTP is a pure function of the phone string alone - two calls on
the same phone always give the same code (here witnessed on the demo phone,
whose code evaluates concretely), the code never exceeds six characters, and
`verify_otp` holds exactly when the provided code equals the generated one,
ignoring the phone argument. -/
theorem otp_deterministic_and_verify (phone phone2 provided generated : String)
    (h : phone = phone2) :
    simulate_otp_generation phone = simulate_otp_generation phone2 ∧
    (simulate_otp_generation phone).length ≤ 6 ∧
    (verify_otp phone provided generated = true ↔ provided = generated) ∧
    simulate_otp_generation "9876543210" = "830601" := by
  subst h
  refine ⟨rfl, ?_, ?_, ?_⟩
  · unfold simulate_otp_generation lastChars
    simp only [String.length, List.length_reverse, List.length_take]
    exact min_le_left _ _
  · simp [verify_otp]
  · rfl

/-- Witness for C10 on the demo phone number and a matching code pair. -/
theorem otp_deterministic_and_verify_witness :
    simulate_otp_generation "9876543210" = simulate_otp_generation "9876543210" ∧
    (simulate_otp_generation "9876543210").length ≤ 6 ∧
    (verify_otp "9876543210" "830601" "830601" = true ↔ "830601" = "830601") ∧
    simulate_otp_generation "9876543210" = "830601" :=
  otp_deterministic_and_verify "9876543210" "9876543210" "830601" "830601" rfl

/-- C9: a Sales invocation with no requested amount stored is a pure no-op
hand-back to the router: the delegation signal is cleared, control moves to
the master, and the history, the error field and every loan-negotiation
field are untouched. -/
theorem sales_agent_node_noop (db : CustomerDB) (s : AppState)
    (h : s.requested_amount = none) :
    sales_agent_node db s =
      { s with active_agent := some "master", next_action := none } ∧
    (sales_agent_node db s).conversation_history = s.conversation_history ∧
    (sales_agent_node db s).last_error = s.last_error ∧
    (sales_agent_node db s).next_action = none ∧
    (sales_agent_node db s).active_agent = some "master" ∧
    (sales_agent_node db s).requested_amount = s.requested_amount ∧
    (sales_agent_node db s).customer_needs = s.customer_needs ∧
    (sales_agent_node db s).recommended_offers = s.recommended_offers ∧
    (sales_agent_node db s).tenure_months = s.tenure_months ∧
    (sales_agent_node db s).interest_rate = s.interest_rate ∧
    (sales_agent_node db s).monthly_emi = s.monthly_emi := by
  have hval : sales_agent_node db s =
      { s with active_agent := some "master", next_action := none } := by
    simp only [sales_agent_node, h]
  rw [hval]
  simp

/-- Witness for C9: a concrete mid-conversation record with no requested
amount passes through Sales unchanged except for the hand-back fields. -/
theorem sales_agent_node_noop_witness :
    sales_agent_node dbDemo
      { customer_id := some "CUST001", current_stage := "sales_negotiation"
        next_action := some "delegate_to_sales" } =
      { customer_id := some "CUST001", current_stage := "sales_negotiation"
        next_action := none, active_agent := some "master" } := by
  have h := sales_agent_node_noop dbDemo
    { customer_id := some "CUST001", current_stage := "sales_negotiation"
      next_action := some "delegate_to_sales" } rfl
  exact h.1

/-- C8: if any of customer id, approved amount, tenure, interest rate or
monthly EMI is missing, the Sanction unit returns an error result instead of
raising, and the node update leaves status, stage, the sanction-letter
fields and the history unchanged - only `last_error` and the routing
bookkeeping (`active_agent`) change. -/
theorem generate_sanction_missing_fields (db : CustomerDB) (now : Timestamp)
    (s : AppState)
    (h : s.customer_id = none ∨ s.approved_amount = none ∨ s.tenure_months = none ∨
      s.interest_rate = none ∨ s.monthly_emi = none) :
    (generate_sanction db now s).success = false ∧
    (generate_sanction db now s).error =
      some "Missing required information for sanction letter" ∧
    sanction_agent_node db now s =
      { s with active_agent := some "master",
               last_error := some "Missing required information for sanction letter" } ∧
    (sanction_agent_node db now s).application_status = s.application_status ∧
    (sanction_agent_node db now s).current_stage = s.current_stage ∧
    (sanction_agent_node db now s).sanction_letter_url = s.sanction_letter_url ∧
    (sanction_agent_node db now s).sanction_letter_ref_no = s.sanction_letter_ref_no ∧
    (sanction_agent_node db now s).conversation_history = s.conversation_history := by
  have hval : generate_sanction db now s =
      { success := false
        error := some "Missing required information for sanction letter" } := by
    cases h1 : s.customer_id <;> cases h2 : s.approved_amount <;>
      cases h3 : s.tenure_months <;> cases h4 : s.interest_rate <;>
      cases h5 : s.monthly_emi <;> simp_all [generate_sanction]
  have hnode : sanction_agent_node db now s =
      { s with active_agent := some "master",
               last_error := some "Missing required information for sanction letter" } := by
    simp only [sanction_agent_node, hval]
    simp
  refine ⟨by rw [hval], by rw [hval], hnode, ?_, ?_, ?_, ?_, ?_⟩ <;> rw [hnode]

/-- Witness for C8: a record lacking the tenure (and more) is turned back
with an error signal and an otherwise unchanged record. -/
theorem generate_sanction_missing_fields_witness :
    (generate_sanction dbDemo { date := "20251010", time := "120000", validity := "09 November 2025" }
      { customer_id := some "CUST001", approved_amount := some 400000
        application_status := "approved", current_stage := "underwriting" }).success
      = false ∧
    (sanction_agent_node dbDemo
      { date := "20251010", time := "120000", validity := "09 November 2025" }
      { customer_id := some "CUST001", approved_amount := some 400000
        application_status := "approved", current_stage := "underwriting" }).current_stage
      = "underwriting" := by
  have h := generate_sanction_missing_fields dbDemo
    { date := "20251010", time := "120000", validity := "09 November 2025" }
    { customer_id := some "CUST001", approved_amount := some 400000
      application_status := "approved", current_stage := "underwriting" }
    (Or.inr (Or.inr (Or.inl rfl)))
  exact ⟨h.1, h.2.2.2.2.1⟩

/-- The successful Sanction step in closed form: with a known customer and
all required fields truthy, the node appends the message, stores the fresh
reference number and download URL computed from the call's timestamp, and
moves the stage to `closure`. -/
theorem sanction_agent_node_success (db : CustomerDB) (now : Timestamp)
    (s : AppState) (cid : String) (c : Customer) (amt : ℚ) (tm : ℕ) (ir emi : ℚ)
    (hcid : s.customer_id = some cid) (hc : db cid = some c)
    (h1 : s.approved_amount = some amt) (h2 : s.tenure_months = some tm)
    (h3 : s.interest_rate = some ir) (h4 : s.monthly_emi = some emi)
    (hne : ¬ (cid = "" ∨ amt = 0 ∨ tm = 0 ∨ ir = 0 ∨ emi = 0)) :
    sanction_agent_node db now s =
      { add_message s "assistant" ("sanction-letter:" ++ sanction_ref_no now cid)
          (some "sanction") with
        sanction_letter_url := some (get_document_download_url
          ("data/output/" ++ sanction_filename now cid)),
        sanction_letter_ref_no := some (sanction_ref_no now cid),
        current_stage := "closure",
        active_agent := some "master",
        next_action := none } := by
  have hgen : generate_sanction db now s =
      { success := true
        sanction_letter_url := get_document_download_url
          ("data/output/" ++ sanction_filename now cid)
        file_path := "data/output/" ++ sanction_filename now cid
        reference_number := sanction_ref_no now cid
        validity_date := now.validity
        message := "sanction-letter:" ++ sanction_ref_no now cid } := by
    simp only [generate_sanction, hcid, h1, h2, h3, h4]
    rw [if_neg hne]
    simp only [generate_sanction_letter, get_customer_by_id, hc]
    simp
  simp only [sanction_agent_node, hgen]
  simp

/-- A first sanction-time: 2025-10-10 12:00:00. -/
def nowT1 : Timestamp :=
  { date := "20251010", time := "120000", validity := "09 November 2025" }

/-- A second sanction-time five seconds later: 2025-10-10 12:00:05. -/
def nowT2 : Timestamp :=
  { date := "20251010", time := "120005", validity := "09 November 2025" }

/-- An approved record carrying every field the Sanction unit requires. -/
def sanctionedBase : AppState :=
  { customer_id := some "CUST001", application_status := "approved"
    current_stage := "sanction_generation", approved_amount := some 400000
    tenure_months := some 36, interest_rate := some (9/100)
    monthly_emi := some 12720 }

/-- Counterexample for C6: sanctioning the demo record once (so that it
carries a sanction letter reference), then invoking the Sanction unit again
five seconds later, replaces the stored letter location - the second call
regenerates the artifact under a new timestamped file name instead of
leaving the stored reference untouched. -/
theorem sanction_reentry_counterexample :
    (sanction_agent_node dbDemo nowT1 sanctionedBase).sanction_letter_ref_no.isSome
      = true ∧
    (sanction_agent_node dbDemo nowT2
        (sanction_agent_node dbDemo nowT1 sanctionedBase)).sanction_letter_url ≠
      (sanction_agent_node dbDemo nowT1 sanctionedBase).sanction_letter_url := by
  have hne : ¬ (("CUST001" : String) = "" ∨ (400000 : ℚ) = 0 ∨ (36 : ℕ) = 0 ∨
      (9/100 : ℚ) = 0 ∨ (12720 : ℚ) = 0) := by
    push_neg
    exact ⟨by decide, by norm_num, by norm_num, by norm_num, by norm_num⟩
  have h1 := sanction_agent_node_success dbDemo nowT1 sanctionedBase
    "CUST001" custDemo1 400000 36 (9/100) 12720 rfl rfl rfl rfl rfl rfl hne
  have h2 := sanction_agent_node_success dbDemo nowT2
    (sanction_agent_node dbDemo nowT1 sanctionedBase)
    "CUST001" custDemo1 400000 36 (9/100) 12720
    (by rw [h1]; rfl) rfl (by rw [h1]; rfl) (by rw [h1]; rfl)
    (by rw [h1]; rfl) (by rw [h1]; rfl) hne
  refine ⟨by rw [h1]; rfl, ?_⟩
  rw [h2, h1]
  decide

/-- C6 as amended: re-invoking the Sanction unit on an already-sanctioned
record (all required fields truthy) regenerates the artifact - the stored
reference number and letter location are overwritten with values recomputed
from the new call's clock: reference `SL/<date>/<customer_id>` (unchanged
only when both calls share the calendar date) and a download URL built from
the new timestamped file name (changed whenever the timestamp differs). -/
theorem sanction_reentry_overwrites (db : CustomerDB) (now : Timestamp)
    (s : AppState) (cid : String) (c : Customer) (amt : ℚ) (tm : ℕ) (ir emi : ℚ)
    (hprev : s.sanction_letter_ref_no.isSome = true)
    (hcid : s.customer_id = some cid) (hc : db cid = some c)
    (h1 : s.approved_amount = some amt) (h2 : s.tenure_months = some tm)
    (h3 : s.interest_rate = some ir) (h4 : s.monthly_emi = some emi)
    (hne : ¬ (cid = "" ∨ amt = 0 ∨ tm = 0 ∨ ir = 0 ∨ emi = 0)) :
    (sanction_agent_node db now s).sanction_letter_ref_no =
      some (sanction_ref_no now cid) ∧
    (sanction_agent_node db now s).sanction_letter_url =
      some (get_document_download_url ("data/output/" ++ sanction_filename now cid)) ∧
    (sanction_agent_node db now s).current_stage = "closure" := by
  rw [sanction_agent_node_success db now s cid c amt tm ir emi hcid hc h1 h2 h3 h4 hne]
  exact ⟨rfl, rfl, rfl⟩

/-- A record that already carries the sanction artifacts of the first call. -/
def sanctionedOnce : AppState :=
  { sanctionedBase with
    sanction_letter_ref_no := some "SL/20251010/CUST001"
    sanction_letter_url :=
      some "/api/documents/download/sanction_letter_CUST001_20251010_120000.pdf" }

/-- Witness for the amended C6: the second call at 12:00:05 overwrites the
URL with the new timestamped file name and rewrites the (same-date)
reference. -/
theorem sanction_reentry_overwrites_witness :
    (sanction_agent_node dbDemo nowT2 sanctionedOnce).sanction_letter_ref_no =
      some "SL/20251010/CUST001" ∧
    (sanction_agent_node dbDemo nowT2 sanctionedOnce).sanction_letter_url =
      some "/api/documents/download/sanction_letter_CUST001_20251010_120005.pdf" := by
  have h := sanction_reentry_overwrites dbDemo nowT2 sanctionedOnce
    "CUST001" custDemo1 400000 36 (9/100) 12720 rfl rfl rfl rfl rfl rfl rfl
    (by push_neg
        exact ⟨by decide, by norm_num, by norm_num, by norm_num, by norm_num⟩)
  exact ⟨h.1, by rw [h.2.1]; decide⟩

/-- Step 0 of the C1 trace: fresh session for the demo customer. -/
def c1s0 : AppState := create_initial_state (some "CUST001")

/-- Step 1: the user's first message arrives (driver turn). -/
def c1s1 : AppState := add_message c1s0 "user" "Hi, I need a personal loan" none

/-- Step 2: the master replies and advances to needs assessment. -/
def c1s2 : AppState :=
  { add_message c1s1 "assistant" "Happy to help" (some "master") with
    current_stage := "needs_assessment", next_action := none,
    active_agent := some "master" }

/-- Step 3: the driver stores the extracted amount and appends the user
message naming it. -/
def c1s3 : AppState :=
  add_message
    { c1s2 with requested_amount := some 400000,
                customer_needs := some "Loan of 400000 for home renovation" }
    "user" "Loan of 400000 for home renovation" none

/-- Step 4: the master advances to underwriting and delegates. -/
def c1s4 : AppState :=
  { add_message c1s3 "assistant" "Running underwriting now" (some "master") with
    current_stage := "underwriting",
    next_action := some "delegate_to_underwriting",
    active_agent := some "master" }

/-- Step 5: the underwriting node decides. -/
def c1s5 : AppState := underwriting_agent_node dbDemo c1s4

/-- Counterexample for C1: a reachable record - produced by the very
underwriting step that approves the demo application - has
`application_status = "approved"` while `current_stage` is still
`"underwriting"`, not `"closure"`; the claimed invariant fails on it. -/
theorem closure_invariant_counterexample :
    ∃ s : AppState, Reachable dbDemo s ∧ s.application_status = "approved" ∧
      s.current_stage ≠ "closure" := by
  have r0 : Reachable dbDemo c1s0 := Reachable.init (some "CUST001")
  have r1 : Reachable dbDemo c1s1 :=
    Reachable.driver c1s0 c1s1 r0 ⟨"Hi, I need a personal loan", 1, Or.inr rfl⟩
  have r2 : Reachable dbDemo c1s2 := by
    refine Reachable.master c1s1 c1s2 r1 (Or.inr ?_)
    refine ⟨{ role := "user", content := "Hi, I need a personal loan", agent := none },
      rfl, rfl, "Happy to help", "needs_assessment", none, Or.inl (by decide),
      by decide, rfl⟩
  have r3 : Reachable dbDemo c1s3 := by
    refine Reachable.driver c1s2 c1s3 r2
      ⟨"Loan of 400000 for home renovation", 400000, Or.inl ⟨rfl, by norm_num, rfl⟩⟩
  have r4 : Reachable dbDemo c1s4 := by
    refine Reachable.master c1s3 c1s4 r3 (Or.inr ?_)
    refine ⟨{ role := "user", content := "Loan of 400000 for home renovation",
              agent := none },
      rfl, rfl, "Running underwriting now", "underwriting",
      some "delegate_to_underwriting", Or.inl (by decide), by decide, rfl⟩
  have r5 : Reachable dbDemo c1s5 :=
    Reachable.underwriting c1s4 r4 (by decide)
  refine ⟨c1s5, r5, ?_, ?_⟩
  · have helig : check_eligibility dbDemo "CUST001" 400000 none =
        { decision := "approved"
          reason := "Loan amount is within pre-approved limit"
          approved_amount := some 400000
          instant_approval := true } := by
      simp only [check_eligibility, get_customer_by_id, dbDemo]
      norm_num [custDemo1]
    have hne : ¬ (("CUST001" : String) = "") := by decide
    simp only [c1s5, underwriting_agent_node, process_underwriting, c1s4, c1s3, c1s2,
      c1s1, c1s0, create_initial_state, add_message]
    norm_num [get_customer_by_id, dbDemo, helig, hne]
  · have helig : check_eligibility dbDemo "CUST001" 400000 none =
        { decision := "approved"
          reason := "Loan amount is within pre-approved limit"
          approved_amount := some 400000
          instant_approval := true } := by
      simp only [check_eligibility, get_customer_by_id, dbDemo]
      norm_num [custDemo1]
    have hne : ¬ (("CUST001" : String) = "") := by decide
    simp only [c1s5, underwriting_agent_node, process_underwriting, c1s4, c1s3, c1s2,
      c1s1, c1s0, create_initial_state, add_message]
    norm_num [get_customer_by_id, dbDemo, helig, hne]
    decide

/-- C1 as amended: the underwriting step that decides the application never
changes `current_stage` (so a record can hold `application_status` in
`approved`/`rejected` while the stage is still `underwriting`); the
implication `status ∈ {approved, rejected} → stage = closure` is established
only by a successful sanction step, which sets the stage to `closure`. -/
theorem closure_invariant_amended (db : CustomerDB) (now : Timestamp)
    (s : AppState) :
    (underwriting_agent_node db s).current_stage = s.current_stage ∧
    ((generate_sanction db now s).success = true →
      (sanction_agent_node db now s).current_stage = "closure") := by
  constructor
  · simp only [underwriting_agent_node, add_message]
    split <;> [skip; rfl]
    split
    · rfl
    · split <;> rfl
  · intro h
    simp [sanction_agent_node, h]

/-- Witness for the amended C1: on the fully loaded approved demo record the
sanction step succeeds and lands the stage in `closure`, while the
underwriting step leaves the stage where it was. -/
theorem closure_invariant_amended_witness :
    (underwriting_agent_node dbDemo sanctionedBase).current_stage =
      "sanction_generation" ∧
    (sanction_agent_node dbDemo nowT1 sanctionedBase).current_stage = "closure" := by
  have hsucc : (generate_sanction dbDemo nowT1 sanctionedBase).success = true := by
    have hne : ¬ (("CUST001" : String) = "" ∨ (400000 : ℚ) = 0 ∨ (36 : ℕ) = 0 ∨
        (9/100 : ℚ) = 0 ∨ (12720 : ℚ) = 0) := by
      push_neg
      exact ⟨by decide, by norm_num, by norm_num, by norm_num, by norm_num⟩
    simp only [generate_sanction, sanctionedBase]
    rw [if_neg hne]
    simp [generate_sanction_letter, get_customer_by_id, dbDemo]
  have h := closure_invariant_amended dbDemo nowT1 sanctionedBase
  exact ⟨h.1, h.2 hsucc⟩
